import Mathlib

/- Shallow embedding of the IPC dispatch layer and the session access layer of
   plugin.video.netflix:
     resources/lib/common/ipc.py
     resources/lib/services/nfsession/session/access.py
   Python values crossing the IPC boundary are modelled by the JSON-like type
   JVal (JVal.null stands for Python None); raised Python exceptions are
   modelled by the type Exc; side effects (logging, signals, dialogs, stores)
   are made explicit as output lists or state fields. -/

mutual

/-- A Python value as it appears on the IPC boundary: None, bool, int, str,
or a dict with string keys (insertion-ordered, as decoded by json.loads with
object_pairs_hook=OrderedDict). -/
inductive JVal where
  | null
  | jbool (b : Bool)
  | num (n : Int)
  | str (s : String)
  | dict (entries : JEntries)
deriving DecidableEq

/-- The ordered entries of a Python dict with string keys. -/
inductive JEntries where
  | nil
  | cons (k : String) (v : JVal) (rest : JEntries)
deriving DecidableEq

end

/-- Dictionary key lookup: models Python `d[k]` / `k in d` on a dict with
string keys (keys are unique in a decoded dict, so first match suffices). -/
def JEntries.lookup : JEntries → String → Option JVal
  | .nil, _ => none
  | .cons k v rest, key => if k = key then some v else rest.lookup key

/-- Python str() rendering of a JVal, as used by logging and by str(exc).
The rendering of a nested dict is abstracted to an opaque token; no claim
depends on the concrete text of a rendered dict. -/
def jvalToStr : JVal → String
  | .null => "None"
  | .jbool b => if b then "True" else "False"
  | .num n => toString n
  | .str s => s
  | .dict _ => "\x7b...\x7d"

/-- A raised Python exception.
`api kind message` is an exception class from the resources.lib.api.exceptions
module (the remote-exception registry), constructed with an optional single
argument; `generic` is a plain `Exception(payload)`; `backendNotReady` is the
BackendNotReady class defined in ipc.py; `typeError` models a built-in
TypeError (e.g. an unhashable dict used as a dict key). -/
inductive Exc where
  | api (kind : String) (message : Option JVal)
  | generic (payload : JVal)
  | backendNotReady (msg : String)
  | typeError (msg : String)
deriving DecidableEq

/-- Python `exc.__class__.__name__`. -/
def excClassName : Exc → String
  | .api kind _ => kind
  | .generic _ => "Exception"
  | .backendNotReady _ => "BackendNotReady"
  | .typeError _ => "TypeError"

/-- Python `unicode(exc)` / `str(exc)`: the string form of the exception's
single argument (empty for an exception raised without arguments). -/
def excToStr : Exc → String
  | .api _ none => ""
  | .api _ (some m) => jvalToStr m
  | .generic p => jvalToStr p
  | .backendNotReady m => m
  | .typeError m => m

/-- One emitted log record (resources/lib/common/logging.py helpers).
`errorTraceback` is an error-level record holding a full stack trace
(traceback.format_exc()). -/
inductive LogEntry where
  | debugMsg (s : String)
  | infoMsg (s : String)
  | errorMsg (s : String)
  | errorTraceback
deriving DecidableEq

/-- Modelled from the spec: the fixed registry of known remote-exception kinds
(the class names defined in the module resources.lib.api.exceptions, which is
not under src/). The kinds are taken from the spec's error taxonomy (section 7)
and from the names access.py imports from that module. BackendNotReady is not
in this registry: it is defined in ipc.py itself, not in the exceptions
module. -/
def apierrorsKinds : List String :=
  [("NotConnected"), ("NotLoggedInError"), ("MissingCredentialsError"),
   ("LoginFailedError"), ("LoginValidateError"), ("LoginValidateErrorIncorrectPassword"),
   ("InvalidMembershipStatusError"), ("InvalidMembershipStatusAnonymous"), ("CacheMiss")]

/-- ipc.py `_raise_for_error(callname, result)`.
Returns the emitted log records and the exception raised, if any (none means
the function returns normally and the caller goes on to return `result`).
Mirrors the source: only a dict containing key 'error' is inspected; unless
the error value equals 'CacheMiss' an error record is logged first (the
format string reads both result['error'] and result['message'], so a missing
'message' key raises KeyError, caught by the `except KeyError` clause which
raises `Exception(result['error'])`); then the error kind is looked up in the
registry module dict: a registered kind is raised constructed with
result['message'], an unknown hashable key raises KeyError (same fallback),
and an unhashable dict key raises an uncaught TypeError. -/
def raise_for_error (callname : String) (result : JVal) : List LogEntry × Option Exc :=
  match result with
  | .dict entries =>
    match entries.lookup ("error") with
    | none => ([], none)
    | some errVal =>
      if errVal = JVal.str ("CacheMiss") then
        match entries.lookup ("message") with
        | none => ([], some (.generic errVal))
        | some msgVal => ([], some (.api ("CacheMiss") (some msgVal)))
      else
        match entries.lookup ("message") with
        | none => ([], some (.generic errVal))
        | some msgVal =>
          let logLine := LogEntry.errorMsg
            ("IPC call " ++ callname ++ " returned " ++ jvalToStr errVal ++ ": " ++ jvalToStr msgVal)
          match errVal with
          | .str kind =>
            if kind ∈ apierrorsKinds then ([logLine], some (.api kind (some msgVal)))
            else ([logLine], some (.generic errVal))
          | .dict _ => ([logLine], some (.typeError ("unhashable type: dict")))
          | _ => ([logLine], some (.generic errVal))
  | _ => ([], none)

example : (raise_for_error ("c")
    (JVal.dict (.cons ("error") (.str ("NotConnected")) (.cons ("message") (.str ("m")) .nil)))).2 =
    some (Exc.api ("NotConnected") (some (JVal.str ("m")))) := by decide

example : raise_for_error ("c") (JVal.str ("x")) = ([], none) := by decide

/-- The outcome of a Python call: a returned value or a raised exception. -/
inductive CallResult where
  | ok (v : JVal)
  | exc (e : Exc)
deriving DecidableEq

/-- ipc.py `make_addonsignals_call(callname, data)`.
`reply` is the value AddonSignals.makeCall returned for the call, with
JVal.null standing for Python None (which is what makeCall yields when no
answer arrived within the 20 s timeout). Mirrors the source: a debug record
is logged, the reply goes through `_raise_for_error`, and only then a None
reply raises the plain `Exception('Addon Signals call timeout')`. -/
def make_addonsignals_call (callname : String) (reply : JVal) : List LogEntry × CallResult :=
  let dbg := LogEntry.debugMsg ("Handling AddonSignals IPC call to " ++ callname)
  let pair := raise_for_error callname reply
  (dbg :: pair.1,
   match pair.2 with
   | some e => .exc e
   | none =>
     if reply = JVal.null then .exc (.generic (.str ("Addon Signals call timeout")))
     else .ok reply)

/-- The outcome of the urlopen call inside `make_http_call`, with the JSON
payloads carried already decoded (a body or reason that fails to decode would
raise an uncaught ValueError; no claim concerns that case).
`httpError` carries the HTTP status code, the decoded reason phrase
(`json.loads(exc.reason)`) and the decoded response body; `urlError` is a
connection-level failure with its rendered message. -/
inductive UrlopenOutcome where
  | ok (body : JVal)
  | httpError (code : Nat) (reason : JVal) (body : JVal)
  | urlError (msg : String)
deriving DecidableEq

/-- Whether `pat` occurs as a contiguous run inside the character list. -/
def listHasInfix (pat : List Char) : List Char → Bool
  | [] => pat.isEmpty
  | c :: rest => pat.isPrefixOf (c :: rest) || listHasInfix pat rest

/-- Python `pat in s` on strings: substring containment. -/
def strContains (s pat : String) : Bool :=
  listHasInfix pat.toList s.toList

/-- ipc.py `make_http_call(callname, data)`.
Mirrors the source: on a 2xx response the decoded body is run through
`_raise_for_error` and returned; on HTTPError the decoded reason phrase is
used as the result in exactly the same way (the body and the status code are
never read); on URLError the message (with a hint appended when it contains
the platform error code 10049) is logged and BackendNotReady is raised. -/
def make_http_call (callname : String) (outcome : UrlopenOutcome) : List LogEntry × CallResult :=
  let dbg := LogEntry.debugMsg ("Handling HTTP IPC call to " ++ callname)
  match outcome with
  | .ok body =>
    let pair := raise_for_error callname body
    (dbg :: pair.1,
     match pair.2 with
     | some e => .exc e
     | none => .ok body)
  | .httpError _code reason _body =>
    let pair := raise_for_error callname reason
    (dbg :: pair.1,
     match pair.2 with
     | some e => .exc e
     | none => .ok reason)
  | .urlError msg =>
    let errMsg :=
      if strContains msg ("10049") then
        msg ++ "\r\nPossible cause is wrong localhost settings in your operative system."
      else msg
    ([dbg, .errorMsg errMsg], .exc (.backendNotReady errMsg))

/-- The argument shapes a Python callable can be invoked with through the IPC
layer: no arguments, one positional argument, or expanded keyword
arguments. -/
inductive CallArgs where
  | noArgs
  | positional (v : JVal)
  | keyword (kwargs : JEntries)
deriving DecidableEq

/-- ipc.py `_call(func, data)`: a dict payload is expanded to keyword
arguments, a non-None payload is passed positionally, None invokes with no
arguments. The callable is modelled as a function from the argument shape to
its outcome. -/
def call_func (f : CallArgs → CallResult) (data : JVal) : CallResult :=
  match data with
  | .dict entries => f (.keyword entries)
  | .null => f .noArgs
  | v => f (.positional v)

/-- ipc.py `_call_with_instance(instance, func, data)`: same three payload
shapes, with the enclosing instance always passed as first argument. -/
def call_with_instance (inst : JVal) (f : JVal → CallArgs → CallResult) (data : JVal) : CallResult :=
  match data with
  | .dict entries => f inst (.keyword entries)
  | .null => f inst .noArgs
  | v => f inst (.positional v)

/-- The error envelope built by `_print_convert_exc`:
`{'error': exc.__class__.__name__, 'message': unicode(exc)}`. -/
def excEnvelope (e : Exc) : JVal :=
  .dict (.cons ("error") (.str (excClassName e)) (.cons ("message") (.str (excToStr e)) .nil))

/-- ipc.py `_print_convert_exc(exc)`: logs the exception at error level, then
logs the full stack trace at error level, and returns the error envelope. -/
def print_convert_exc (e : Exc) : List LogEntry × JVal :=
  ([LogEntry.errorMsg ("IPC callback raised exception: " ++ excToStr e), LogEntry.errorTraceback],
   excEnvelope e)

/-- ipc.py `_execute_addonsignals_return_call(result, func_name)`.
Returns the AddonSignals return call issued, if any, paired with the value the
function returns. With IPC over HTTP configured the result is returned
untouched; otherwise a None result is replaced by an empty dict and a return
call tagged with the callee's name is issued. -/
def execute_addonsignals_return_call (ipcOverHttp : Bool) (result : JVal) (funcName : String) :
    Option (String × JVal) × JVal :=
  if ipcOverHttp then (none, result)
  else
    let r := if result = JVal.null then JVal.dict .nil else result
    (some (funcName, r), r)

/-- ipc.py `_ipc_return_call(func, data, func_name)` (the adapter used by
EnvelopeIPCReturnCall.call): invokes the callable via `_call`, converts any
raised exception with `_print_convert_exc`, and hands the result to
`_execute_addonsignals_return_call`. Output: (log records issued, return call
issued if any, value produced). -/
def ipc_return_call (ipcOverHttp : Bool) (f : CallArgs → CallResult) (data : JVal)
    (funcName : String) : List LogEntry × Option (String × JVal) × JVal :=
  match call_func f data with
  | .ok v =>
    let out := execute_addonsignals_return_call ipcOverHttp v funcName
    ([], out.1, out.2)
  | .exc e =>
    let conv := print_convert_exc e
    let out := execute_addonsignals_return_call ipcOverHttp conv.2 funcName
    (conv.1, out.1, out.2)

/-- ipc.py `_ipc_return_call_instance(instance, func, data)` (the adapter used
by the `ipc_return_call` decorator): same as `_ipc_return_call` but the
callable receives the enclosing instance as first argument. -/
def ipc_return_call_instance (ipcOverHttp : Bool) (inst : JVal)
    (f : JVal → CallArgs → CallResult) (data : JVal) (funcName : String) :
    List LogEntry × Option (String × JVal) × JVal :=
  match call_with_instance inst f data with
  | .ok v =>
    let out := execute_addonsignals_return_call ipcOverHttp v funcName
    ([], out.1, out.2)
  | .exc e =>
    let conv := print_convert_exc e
    let out := execute_addonsignals_return_call ipcOverHttp conv.2 funcName
    (conv.1, out.1, out.2)

/-- The process-wide mutable state touched by SessionAccess
(resources/lib/services/nfsession/session/access.py) and its collaborators.
The collaborators themselves (cookie store, credential store, settings store,
UI surface, cache, signal bus) are outside src/, so each is held as an
explicit field mutated exactly where the source calls it; the two cookie
checks `_load_cookies` and `_verify_session_cookies` live in the SessionCookie
mixin (not under src/) and are modelled from the spec as opaque boolean
outcomes of the current state. -/
structure SessionState where
  /-- Outcome of common.is_internet_connected(). -/
  internetConnected : Bool
  /-- Modelled from the spec: outcome of SessionCookie._load_cookies(), i.e.
  whether cookies load successfully from storage. -/
  loadCookiesOk : Bool
  /-- Modelled from the spec: outcome of
  SessionCookie._verify_session_cookies(), i.e. whether the loaded cookies
  pass structural/expiry verification. -/
  verifyCookiesOk : Bool
  /-- The in-memory cookie jar (self.session.cookies), as opaque cookie
  names. -/
  cookieJar : List String
  /-- Whether the on-disk cookie record for the account hash exists
  (cookies.save / cookies.delete). -/
  diskCookies : Bool
  /-- Whether stored credentials exist (common.purge_credentials clears
  them). -/
  credentials : Bool
  /-- The stored device identifier: g.get_esn() / LOCAL_DB value 'esn'. -/
  esn : String
  /-- g.settings_monitor_suspend state. -/
  settingsMonitorSuspended : Bool
  /-- ADDON setting 'lib_auto_upd_mode'. -/
  libAutoUpdMode : Int
  /-- ADDON setting 'lib_sync_mylist'. -/
  libSyncMylist : Bool
  /-- SHARED_DB key 'sync_mylist_profile_guid'. -/
  syncMylistProfileGuid : Option String
  /-- LOCAL_DB value 'autoselect_profile_guid'. -/
  autoselectProfileGuid : String
  /-- ADDON setting 'autoselect_profile_name'. -/
  autoselectProfileName : String
  /-- ADDON setting 'autoselect_profile_enabled'. -/
  autoselectProfileEnabled : Bool
  /-- LOCAL_DB value 'library_playback_profile_guid'. -/
  libraryPlaybackProfileGuid : String
  /-- ADDON setting 'library_playback_profile'. -/
  libraryPlaybackProfile : String
  /-- Whether g.CACHE.clear(clear_database=True) has run. -/
  cacheCleared : Bool
  /-- Number of times _init_session() has reset the transport session. -/
  initSessionCount : Nat
  /-- Signals sent via common.send_signal, in order, as (name, data). -/
  sentSignals : List (String × JVal)
  /-- Passive notifications shown (ui.show_notification), in order. -/
  shownNotices : List String
  /-- Modal dialogs shown (ui.show_ok_dialog), as (title, text), in order. -/
  okDialogs : List (String × String)
  /-- Error info dialogs shown (ui.show_error_info), as (title, text), in
  order. -/
  errorInfos : List (String × String)
  /-- Container navigation requests (common.container_update), in order. -/
  containerUpdates : List (String × Bool)
  /-- Log records emitted, in order. -/
  logs : List LogEntry
deriving DecidableEq

/-- Modelled from the spec: common.get_local_string(n) resolves a localized
string id on the external settings surface; the text itself is opaque, so it
is rendered as a tag carrying the id. -/
def get_local_string (n : Nat) : String :=
  "localized_" ++ toString n

/-- access.py `SessionAccess._verify_esn_existence`: `bool(g.get_esn())` —
an empty ESN string is falsy. -/
def verify_esn_existence (s : SessionState) : Bool :=
  s.esn != ""

/-- access.py `SessionAccess.is_logged_in`: cookies load AND cookies verify
AND a non-empty ESN exists. -/
def is_logged_in (s : SessionState) : Bool :=
  s.loadCookiesOk && s.verifyCookiesOk && verify_esn_existence s

/-- access.py `SessionAccess.assert_logged_in`: raises NotConnected when no
internet connection is available, then NotLoggedInError (raised without
arguments) when `is_logged_in` fails; returns none when the session is
usable. -/
def assert_logged_in (s : SessionState) : Option Exc :=
  if !s.internetConnected then
    some (.api ("NotConnected") (some (.str ("Internet connection not available"))))
  else if !is_logged_in s then
    some (.api ("NotLoggedInError") none)
  else none

/-- access.py `SessionAccess.get_safe`: checks `assert_logged_in`, then
delegates to the underlying GET verb (SessionHTTPRequests.get, outside src/,
whose outcome is the `verbOutcome` input). The Bool records whether the
underlying verb was invoked at all. -/
def get_safe (verbOutcome : CallResult) (s : SessionState) : Bool × CallResult :=
  match assert_logged_in s with
  | some e => (false, .exc e)
  | none => (true, verbOutcome)

/-- access.py `SessionAccess.post_safe`: same guard, delegating to the
underlying POST verb. -/
def post_safe (verbOutcome : CallResult) (s : SessionState) : Bool × CallResult :=
  match assert_logged_in s with
  | some e => (false, .exc e)
  | none => (true, verbOutcome)

/-- access.py `SessionAccess.logout`.
`getOutcome` is the outcome of the initial `self.get('logout')` against the
remote backend (SessionHTTPRequests.get is outside src/). Mirrors the source:
the debug record is logged, then the GET runs with no surrounding handler —
an exception from it propagates at once — and only on GET success do the
settings resets, cookie/credential/ESN clearing, reinitialize signal, cache
clear, notification, session reset and container navigation run, in source
order. -/
def logout (getOutcome : CallResult) (s0 : SessionState) : SessionState × Option Exc :=
  let s1 := { s0 with logs := s0.logs ++ [LogEntry.debugMsg ("Logging out of current account")] }
  match getOutcome with
  | .exc e => (s1, some e)
  | .ok _ =>
    let s2 := { s1 with settingsMonitorSuspended := true }
    let s3 := { s2 with libAutoUpdMode := 1, libSyncMylist := false, syncMylistProfileGuid := none }
    let s4 := { s3 with autoselectProfileGuid := "", autoselectProfileName := "",
                        autoselectProfileEnabled := false }
    let s5 := { s4 with libraryPlaybackProfileGuid := "", libraryPlaybackProfile := "" }
    let s6 := { s5 with settingsMonitorSuspended := false }
    let s7 := { s6 with cookieJar := [], diskCookies := false, credentials := false }
    let s8 := { s7 with esn := "" }
    let s9 := { s8 with sentSignals :=
                  s8.sentSignals ++ [("reinitialize_msl_handler", JVal.jbool true)] }
    let s10 := { s9 with cacheCleared := true }
    let s11 := { s10 with logs := s10.logs ++ [LogEntry.infoMsg ("Logout successful")] }
    let s12 := { s11 with shownNotices := s11.shownNotices ++ [get_local_string 30113] }
    let s13 := { s12 with initSessionCount := s12.initSessionCount + 1 }
    let s14 := { s13 with containerUpdates :=
                  s13.containerUpdates ++ [("path", true), ("BASE_URL", true)] }
    (s14, none)

/-- The outcome of `SessionAccess.login`: a returned boolean or a raised
exception. -/
inductive LoginOutcome where
  | ret (b : Bool)
  | exc (e : Exc)
deriving DecidableEq

/-- Modelled from the spec: the exception classes named in the except clause
`except (LoginValidateError, LoginValidateErrorIncorrectPassword)`; the spec's
taxonomy (section 7) lists the kinds as distinct, so membership is by kind
name. -/
def isLoginValidateExc : Exc → Bool
  | .api kind _ => kind == "LoginValidateError" || kind == "LoginValidateErrorIncorrectPassword"
  | _ => false

/-- Modelled from the spec: the class named in the except clause
`except InvalidMembershipStatusError`. -/
def isInvalidMembershipExc : Exc → Bool
  | .api kind _ => kind == "InvalidMembershipStatusError"
  | _ => false

/-- The outer except chain of access.py `SessionAccess.login`, applied to any
exception that reaches the outer `try`: InvalidMembershipStatusError shows a
persistent error dialog and login returns False; any other exception has its
traceback logged at error level, the cookie jar cleared, and is re-raised. -/
def login_outer_except (e : Exc) (s : SessionState) : SessionState × LoginOutcome :=
  if isInvalidMembershipExc e then
    ({ s with errorInfos := s.errorInfos ++ [(get_local_string 30008, get_local_string 30180)] },
     .ret false)
  else
    let s1 := { s with logs := s.logs ++ [LogEntry.errorTraceback] }
    ({ s1 with cookieJar := [] }, .exc e)

/-- access.py `SessionAccess.login(modal_error_message=True)`.
`preOutcome` is an exception raised in the outer try block before the inner
validation try (fetching the login page, extracting the auth url, or the
credentials POST — all via collaborators outside src/); `validateOutcome` is
an exception raised by website.extract_session_data. Mirrors the source: on
validation failure (LoginValidateError / LoginValidateErrorIncorrectPassword)
the cookie jar is cleared and the credentials purged, then either the
exception is re-raised (landing in the outer `except Exception` clause, which
logs the traceback, clears the jar again and re-raises) or a modal dialog is
shown and login returns False; on validation success cookies are saved and
login returns True; every other exception goes through the outer except
chain. -/
def login (preOutcome : Option Exc) (validateOutcome : Option Exc)
    (modalErrorMessage : Bool) (s0 : SessionState) : SessionState × LoginOutcome :=
  match preOutcome with
  | some e => login_outer_except e s0
  | none =>
    let s1 := { s0 with logs := s0.logs ++ [LogEntry.debugMsg ("Logging in...")] }
    match validateOutcome with
    | none =>
      let s2 := { s1 with logs := s1.logs ++ [LogEntry.infoMsg ("Login successful")] }
      let s3 := { s2 with shownNotices := s2.shownNotices ++ [get_local_string 30109] }
      let s4 := { s3 with diskCookies := true }
      (s4, .ret true)
    | some e =>
      if isLoginValidateExc e then
        let s2 := { s1 with cookieJar := [], credentials := false }
        if !modalErrorMessage then
          login_outer_except e s2
        else
          let s3 := { s2 with okDialogs := s2.okDialogs ++ [(get_local_string 30008, excToStr e)] }
          (s3, .ret false)
      else login_outer_except e s1

/-- C9: a mapping payload is expanded into named keyword arguments of the
target callable, a single non-mapping non-None value is passed as one
positional argument, and an absent (None) payload invokes the callable with
no arguments; when the callable is bound to an enclosing object, that object
is passed implicitly as the first argument under the same three payload
shapes. -/
theorem call_payload_shapes (f : CallArgs → CallResult) (g : JVal → CallArgs → CallResult)
    (inst data : JVal) (entries : JEntries) :
    (call_func f (JVal.dict entries) = f (.keyword entries)) ∧
    (call_func f JVal.null = f .noArgs) ∧
    ((∀ es, data ≠ JVal.dict es) → data ≠ JVal.null →
      call_func f data = f (.positional data)) ∧
    (call_with_instance inst g (JVal.dict entries) = g inst (.keyword entries)) ∧
    (call_with_instance inst g JVal.null = g inst .noArgs) ∧
    ((∀ es, data ≠ JVal.dict es) → data ≠ JVal.null →
      call_with_instance inst g data = g inst (.positional data)) := by
  refine ⟨rfl, rfl, ?_, rfl, rfl, ?_⟩ <;>
    intro hd hn <;> cases data <;>
    first
      | rfl
      | exact absurd rfl hn
      | exact absurd rfl (hd _)

theorem call_payload_shapes_witness :
    call_func (fun _ => CallResult.ok JVal.null) (JVal.num 5) =
      (fun _ => CallResult.ok JVal.null) (CallArgs.positional (JVal.num 5)) :=
  (call_payload_shapes (fun _ => CallResult.ok JVal.null) (fun _ _ => CallResult.ok JVal.null)
      JVal.null (JVal.num 5) JEntries.nil).2.2.1
    (fun _ h => JVal.noConfusion h) (fun h => JVal.noConfusion h)

/-- An error-shaped reason phrase paired with a distinct response body, used
to exhibit which of the two `make_http_call` actually decodes. -/
def errorReasonSample : JVal :=
  .dict (.cons ("error") (.str ("NotConnected")) (.cons ("message") (.str ("no route")) .nil))

/-- C4 counterexample: on an HTTP-level non-2xx response the code decodes the
HTTP reason phrase (`json.loads(exc.reason)`, ipc.py line 110), not the
response body. With an error-shaped reason and a plain body, the call raises
the mapped exception from the reason, which differs from the success result
that decoding the body (as the claim states) would have produced. -/
theorem http_error_body_counterexample :
    ((make_http_call ("msl_request")
        (.httpError 500 errorReasonSample (JVal.str ("okbody")))).2 =
      .exc (.api ("NotConnected") (some (JVal.str ("no route"))))) ∧
    ((make_http_call ("msl_request") (.ok (JVal.str ("okbody")))).2 =
      .ok (JVal.str ("okbody"))) ∧
    ((make_http_call ("msl_request")
        (.httpError 500 errorReasonSample (JVal.str ("okbody")))).2 ≠
      (make_http_call ("msl_request") (.ok (JVal.str ("okbody")))).2) := by
  refine ⟨by decide, by decide, by decide⟩

/-- C4 (amended): for every loopback RPC call that receives an HTTP-level
non-2xx response, the JSON-decoded HTTP reason phrase of the error response
(not the response body) is treated exactly like a successfully decoded 2xx
result, then run through the same error mapping (_raise_for_error); the HTTP
error status code is never read, so it is never itself the failure signal —
only the shape of the decoded JSON payload is. -/
theorem http_error_reason_as_success (callname : String) (code : Nat) (reason body : JVal) :
    make_http_call callname (.httpError code reason body) =
      make_http_call callname (.ok reason) := rfl

/-- C7: for every result produced by a wrapped callee, with the loopback RPC
transport configured the adapter returns the result unchanged and issues no
signal-bus return call; with the signal transport configured it issues a
return call tagged with the callee's name, substituting an empty mapping for
a None result — and a caller receiving that empty mapping observes it as a
plain success, not a timeout. -/
theorem return_call_transport (r : JVal) (funcName callname : String) :
    (execute_addonsignals_return_call true r funcName = (none, r)) ∧
    (execute_addonsignals_return_call false JVal.null funcName =
      (some (funcName, JVal.dict .nil), JVal.dict .nil)) ∧
    (r ≠ JVal.null →
      execute_addonsignals_return_call false r funcName = (some (funcName, r), r)) ∧
    ((make_addonsignals_call callname (JVal.dict .nil)).2 = .ok (JVal.dict .nil)) := by
  refine ⟨rfl, rfl, ?_, rfl⟩
  intro h
  simp [execute_addonsignals_return_call, h]

theorem return_call_transport_witness :
    execute_addonsignals_return_call false (JVal.str ("v")) ("activate_profile") =
      (some (("activate_profile"), JVal.str ("v")), JVal.str ("v")) :=
  (return_call_transport (JVal.str ("v")) ("activate_profile") ("c")).2.2.1
    (fun h => JVal.noConfusion h)

/-- C1: for every call name and every decoded result that is a mapping
containing key 'error' naming a kind registered in the fixed error registry,
together with a 'message' value M, `_raise_for_error` raises the registered
exception kind constructed with M; if the named kind is not in the registry
it raises a generic failure carrying the literal 'error' value; and for every
result that is not a mapping or lacks the key 'error', `_raise_for_error`
raises nothing and the result is returned as success by the transport. -/
theorem raise_for_error_spec (callname kind : String) (entries : JEntries)
    (msg result : JVal) :
    (entries.lookup ("error") = some (JVal.str kind) →
     entries.lookup ("message") = some msg →
      ((kind ∈ apierrorsKinds →
        (raise_for_error callname (JVal.dict entries)).2 = some (Exc.api kind (some msg))) ∧
       (kind ∉ apierrorsKinds →
        (raise_for_error callname (JVal.dict entries)).2 = some (Exc.generic (JVal.str kind))))) ∧
    ((∀ es, result ≠ JVal.dict es) →
      raise_for_error callname result = ([], none) ∧
      make_http_call callname (.ok result) =
        ([LogEntry.debugMsg ("Handling HTTP IPC call to " ++ callname)], .ok result)) ∧
    (entries.lookup ("error") = none →
      raise_for_error callname (JVal.dict entries) = ([], none) ∧
      make_http_call callname (.ok (JVal.dict entries)) =
        ([LogEntry.debugMsg ("Handling HTTP IPC call to " ++ callname)],
         .ok (JVal.dict entries))) := by
  refine ⟨?_, ?_, ?_⟩
  · intro hE hM
    by_cases hk : kind = "CacheMiss"
    · subst hk
      constructor
      · intro _
        simp [raise_for_error, hE, hM]
      · intro hni
        exact absurd (by decide) hni
    · constructor <;> intro hmem <;>
        simp [raise_for_error, hE, hM, hk, hmem]
  · intro hnd
    cases result <;>
      first
        | exact ⟨rfl, rfl⟩
        | exact absurd rfl (hnd _)
  · intro hE
    constructor
    · simp [raise_for_error, hE]
    · simp [make_http_call, raise_for_error, hE]

theorem raise_for_error_spec_witness :
    ((raise_for_error ("c")
        (JVal.dict (.cons ("error") (.str ("NotLoggedInError"))
          (.cons ("message") (.str ("m")) .nil)))).2 =
      some (Exc.api ("NotLoggedInError") (some (JVal.str ("m"))))) ∧
    ((raise_for_error ("c")
        (JVal.dict (.cons ("error") (.str ("SomeUnknownError"))
          (.cons ("message") (.str ("m")) .nil)))).2 =
      some (Exc.generic (JVal.str ("SomeUnknownError")))) ∧
    (raise_for_error ("c") (JVal.num 3) = ([], none)) ∧
    (raise_for_error ("c") (JVal.dict (.cons ("value") (.str ("v")) .nil)) = ([], none)) :=
  ⟨((raise_for_error_spec ("c") ("NotLoggedInError")
      (.cons ("error") (.str ("NotLoggedInError")) (.cons ("message") (.str ("m")) .nil))
      (JVal.str ("m")) JVal.null).1 (by decide) (by decide)).1 (by decide),
   ((raise_for_error_spec ("c") ("SomeUnknownError")
      (.cons ("error") (.str ("SomeUnknownError")) (.cons ("message") (.str ("m")) .nil))
      (JVal.str ("m")) JVal.null).1 (by decide) (by decide)).2 (by decide),
   ((raise_for_error_spec ("c") ("x") JEntries.nil JVal.null (JVal.num 3)).2.1
      (fun _ h => JVal.noConfusion h)).1,
   ((raise_for_error_spec ("c") ("x") (.cons ("value") (.str ("v")) .nil) JVal.null
      JVal.null).2.2 (by decide)).1⟩

/-- C10: for every error-shaped result processed by `_raise_for_error`
(a mapping with an 'error' kind and a 'message'), an error-level log record
containing the call name, the error kind and the message is emitted before
raising, for every error kind except exactly CacheMiss, which is raised
without any error-level logging. -/
theorem raise_for_error_logging (callname kind : String) (entries : JEntries) (msg : JVal)
    (hE : entries.lookup ("error") = some (JVal.str kind))
    (hM : entries.lookup ("message") = some msg) :
    (kind ≠ "CacheMiss" →
      (raise_for_error callname (JVal.dict entries)).1 =
        [LogEntry.errorMsg
          ("IPC call " ++ callname ++ " returned " ++ kind ++ ": " ++ jvalToStr msg)] ∧
      ((raise_for_error callname (JVal.dict entries)).2).isSome = true) ∧
    (kind = "CacheMiss" →
      (raise_for_error callname (JVal.dict entries)).1 = [] ∧
      (raise_for_error callname (JVal.dict entries)).2 =
        some (Exc.api ("CacheMiss") (some msg))) := by
  constructor
  · intro hk
    constructor
    · by_cases hmem : kind ∈ apierrorsKinds <;>
        simp [raise_for_error, hE, hM, hk, hmem, jvalToStr]
    · by_cases hmem : kind ∈ apierrorsKinds <;>
        simp [raise_for_error, hE, hM, hk, hmem]
  · intro hk
    subst hk
    exact ⟨by simp [raise_for_error, hE, hM], by simp [raise_for_error, hE, hM]⟩

theorem raise_for_error_logging_witness :
    ((raise_for_error ("browse")
        (JVal.dict (.cons ("error") (.str ("MissingCredentialsError"))
          (.cons ("message") (.str ("none stored")) .nil)))).1 =
      [LogEntry.errorMsg ("IPC call browse returned MissingCredentialsError: none stored")]) ∧
    ((raise_for_error ("browse")
        (JVal.dict (.cons ("error") (.str ("CacheMiss"))
          (.cons ("message") (.str ("key")) .nil)))).1 = []) :=
  ⟨by
    have h := (raise_for_error_logging ("browse") ("MissingCredentialsError")
      (.cons ("error") (.str ("MissingCredentialsError"))
        (.cons ("message") (.str ("none stored")) .nil))
      (JVal.str ("none stored")) (by decide) (by decide)).1 (by decide)
    simpa [jvalToStr] using h.1,
   ((raise_for_error_logging ("browse") ("CacheMiss")
      (.cons ("error") (.str ("CacheMiss")) (.cons ("message") (.str ("key")) .nil))
      (JVal.str ("key")) (by decide) (by decide)).2 rfl).1⟩

/-- The error mapping can produce registry exceptions, generic failures or a
TypeError, but never a BackendNotReady: that class is only raised by the
connection-failure branch of the HTTP transport. -/
theorem raise_for_error_no_backend_not_ready (callname : String) (r : JVal) (m : String) :
    (raise_for_error callname r).2 ≠ some (Exc.backendNotReady m) := by
  unfold raise_for_error
  cases r <;> try simp
  case dict entries =>
    rcases hL : entries.lookup ("error") with _ | errVal <;> simp [hL]
    rcases hM : entries.lookup ("message") with _ | msgVal <;>
      cases errVal <;>
      (simp [hM] <;> (try split) <;> (try split)) <;>
      simp

/-- C6 counterexample: when the remote side cannot be reached at all, the
signal transport's AddonSignals.makeCall yields None, and
`make_addonsignals_call` raises the plain generic
`Exception('Addon Signals call timeout')` — not a BackendNotReady-class
error, contradicting the claimed connection-level distinction. -/
theorem addonsignals_timeout_counterexample :
    make_addonsignals_call ("activate_profile") JVal.null =
      ([LogEntry.debugMsg ("Handling AddonSignals IPC call to activate_profile")],
       CallResult.exc (Exc.generic (JVal.str ("Addon Signals call timeout")))) := by decide

/-- C6 (amended): for every blocking signal-transport call, on timeout (a
None reply from the bus, whether the remote side was unreachable or merely
silent) the call fails with the generic 'Addon Signals call timeout' error —
the signal transport raises no BackendNotReady-class error — and a None reply
is never returned as success: it is always converted into a raised error. -/
theorem addonsignals_timeout_generic (callname : String) (reply : JVal) :
    ((make_addonsignals_call callname JVal.null).2 =
      .exc (.generic (.str ("Addon Signals call timeout")))) ∧
    (∀ v, (make_addonsignals_call callname reply).2 = .ok v → v ≠ JVal.null) ∧
    (∀ m, (make_addonsignals_call callname reply).2 ≠ .exc (.backendNotReady m)) := by
  refine ⟨rfl, ?_, ?_⟩
  · intro v hv
    simp only [make_addonsignals_call] at hv
    rcases h2 : (raise_for_error callname reply).2 with _ | e <;>
      rw [h2] at hv <;> simp only [] at hv
    · by_cases hn : reply = JVal.null
      · rw [if_pos hn] at hv
        exact absurd hv (by simp)
      · rw [if_neg hn] at hv
        injection hv with hv2
        subst hv2
        exact hn
    · exact absurd hv (by simp)
  · intro m hbnr
    simp only [make_addonsignals_call] at hbnr
    rcases h2 : (raise_for_error callname reply).2 with _ | e <;>
      rw [h2] at hbnr <;> simp only [] at hbnr
    · by_cases hn : reply = JVal.null
      · rw [if_pos hn] at hbnr
        simp at hbnr
      · rw [if_neg hn] at hbnr
        simp at hbnr
    · injection hbnr with he
      subst he
      exact absurd h2 (raise_for_error_no_backend_not_ready callname reply m)

theorem addonsignals_timeout_generic_witness :
    JVal.str ("data") ≠ JVal.null ∧
    (make_addonsignals_call ("c") JVal.null).2 ≠
      .exc (.backendNotReady ("unreachable")) :=
  ⟨(addonsignals_timeout_generic ("c") (JVal.str ("data"))).2.1 (JVal.str ("data")) (by decide),
   (addonsignals_timeout_generic ("c") JVal.null).2.2 ("unreachable")⟩

/-- C2: for every callable wrapped by the Return-Call Adapter (both the
instance-bound decorator form and the EnvelopeIPCReturnCall form) and every
payload, an exception raised during the wrapped call is caught — the adapter
always produces a log/return-call/value triple, never a propagating
exception — and is converted into the envelope mapping whose 'error' field is
the exception's class name and whose 'message' field is the string form of
the exception, after logging the exception and a full stack trace at error
level. -/
theorem return_call_exception_envelope (ipcOverHttp : Bool) (f : CallArgs → CallResult)
    (g : JVal → CallArgs → CallResult) (inst data : JVal) (funcName : String) (e : Exc) :
    (call_func f data = .exc e →
      ipc_return_call ipcOverHttp f data funcName =
        ([LogEntry.errorMsg ("IPC callback raised exception: " ++ excToStr e),
          LogEntry.errorTraceback],
         (if ipcOverHttp then none else some (funcName, excEnvelope e)),
         excEnvelope e)) ∧
    (call_with_instance inst g data = .exc e →
      ipc_return_call_instance ipcOverHttp inst g data funcName =
        ([LogEntry.errorMsg ("IPC callback raised exception: " ++ excToStr e),
          LogEntry.errorTraceback],
         (if ipcOverHttp then none else some (funcName, excEnvelope e)),
         excEnvelope e)) := by
  constructor <;>
    intro h <;>
    cases ipcOverHttp <;>
    simp [ipc_return_call, ipc_return_call_instance, h, print_convert_exc,
      execute_addonsignals_return_call, excEnvelope]

theorem return_call_exception_envelope_witness :
    ipc_return_call false (fun _ => CallResult.exc (Exc.api ("NotLoggedInError") none))
      JVal.null ("get_safe") =
      ([LogEntry.errorMsg ("IPC callback raised exception: "),
        LogEntry.errorTraceback],
       some (("get_safe"), excEnvelope (Exc.api ("NotLoggedInError") none)),
       excEnvelope (Exc.api ("NotLoggedInError") none)) := by
  have h := (return_call_exception_envelope false
    (fun _ => CallResult.exc (Exc.api ("NotLoggedInError") none))
    (fun _ _ => CallResult.ok JVal.null) JVal.null JVal.null ("get_safe")
    (Exc.api ("NotLoggedInError") none)).1 rfl
  simpa [excToStr] using h

/-- C8: before any GET/POST against the remote backend, the session is
checked — NotConnected is raised when no network path exists, and
NotLoggedInError is raised when the logged-in check (cookies load AND cookies
verify AND a non-empty ESN) fails, in both cases without invoking the
underlying verb; only when both checks pass is the verb invoked. The check is
a pure function of the current state — nothing is cached across calls — so
every call re-evaluates it. -/
theorem get_safe_guard (s : SessionState) (r : CallResult) :
    (s.internetConnected = false →
      get_safe r s =
        (false, .exc (.api ("NotConnected") (some (.str ("Internet connection not available"))))) ∧
      post_safe r s =
        (false, .exc (.api ("NotConnected") (some (.str ("Internet connection not available")))))) ∧
    (s.internetConnected = true → is_logged_in s = false →
      get_safe r s = (false, .exc (.api ("NotLoggedInError") none)) ∧
      post_safe r s = (false, .exc (.api ("NotLoggedInError") none))) ∧
    (s.internetConnected = true → is_logged_in s = true →
      get_safe r s = (true, r) ∧ post_safe r s = (true, r)) ∧
    (is_logged_in s = (s.loadCookiesOk && s.verifyCookiesOk && (s.esn != ""))) := by
  refine ⟨?_, ?_, ?_, rfl⟩
  · intro h1
    constructor <;> simp [get_safe, post_safe, assert_logged_in, h1]
  · intro h1 h2
    constructor <;> simp [get_safe, post_safe, assert_logged_in, h1, h2]
  · intro h1 h2
    constructor <;> simp [get_safe, post_safe, assert_logged_in, h1, h2]

/-- A logged-in session snapshot with representative collaborator state, used
as the concrete starting point for the access-layer scenarios. -/
def sampleLoggedInState : SessionState :=
  { internetConnected := true
    loadCookiesOk := true
    verifyCookiesOk := true
    cookieJar := ["NetflixId"]
    diskCookies := true
    credentials := true
    esn := "NFANDROID1-PRV"
    settingsMonitorSuspended := false
    libAutoUpdMode := 0
    libSyncMylist := true
    syncMylistProfileGuid := some ("guid1")
    autoselectProfileGuid := "guid1"
    autoselectProfileName := "Profile1"
    autoselectProfileEnabled := true
    libraryPlaybackProfileGuid := "guid1"
    libraryPlaybackProfile := "Profile1"
    cacheCleared := false
    initSessionCount := 0
    sentSignals := []
    shownNotices := []
    okDialogs := []
    errorInfos := []
    containerUpdates := []
    logs := [] }

theorem get_safe_guard_witness :
    get_safe (.ok (JVal.str ("page"))) ({ sampleLoggedInState with loadCookiesOk := false }) =
      (false, .exc (.api ("NotLoggedInError") none)) :=
  ((get_safe_guard ({ sampleLoggedInState with loadCookiesOk := false })
      (.ok (JVal.str ("page")))).2.1 rfl rfl).1

/-- C3 counterexample: `self.get('logout')` is not wrapped in any handler
(access.py line 135), so when the GET to the remote logout endpoint raises,
the exception propagates immediately: starting from a logged-in state, the
cookie jar keeps its cookie, the credentials and the ESN are untouched, and
no reinitialize broadcast is sent — contradicting "regardless of that GET's
outcome". -/
theorem logout_get_failure_counterexample :
    ((logout (.exc (Exc.generic (JVal.str ("Connection error")))) sampleLoggedInState).1.cookieJar =
      ["NetflixId"]) ∧
    ((logout (.exc (Exc.generic (JVal.str ("Connection error")))) sampleLoggedInState).1.esn =
      "NFANDROID1-PRV") ∧
    ((logout (.exc (Exc.generic (JVal.str ("Connection error")))) sampleLoggedInState).1.credentials =
      true) ∧
    ((logout (.exc (Exc.generic (JVal.str ("Connection error")))) sampleLoggedInState).1.sentSignals =
      []) ∧
    ((logout (.exc (Exc.generic (JVal.str ("Connection error")))) sampleLoggedInState).2 =
      some (Exc.generic (JVal.str ("Connection error")))) := by
  refine ⟨rfl, rfl, rfl, rfl, rfl⟩

/-- C3 (amended): when the initial GET to the remote logout endpoint
succeeds, logout clears the in-memory cookie jar and the on-disk cookie
record, purges stored credentials, clears the stored device identifier (ESN),
and sends the reinitialize broadcast exactly once, ending in the logged-out
state; when that GET raises, the exception propagates and none of these steps
run — the cookie jar, cookie record, credentials, ESN and signal history are
left untouched. -/
theorem logout_transitions (s : SessionState) (resp : JVal) (e : Exc) :
    ((logout (.ok resp) s).2 = none ∧
     (logout (.ok resp) s).1.cookieJar = [] ∧
     (logout (.ok resp) s).1.diskCookies = false ∧
     (logout (.ok resp) s).1.credentials = false ∧
     (logout (.ok resp) s).1.esn = "" ∧
     (logout (.ok resp) s).1.sentSignals =
       s.sentSignals ++ [(("reinitialize_msl_handler"), JVal.jbool true)] ∧
     is_logged_in (logout (.ok resp) s).1 = false) ∧
    ((logout (.exc e) s).2 = some e ∧
     (logout (.exc e) s).1.cookieJar = s.cookieJar ∧
     (logout (.exc e) s).1.diskCookies = s.diskCookies ∧
     (logout (.exc e) s).1.credentials = s.credentials ∧
     (logout (.exc e) s).1.esn = s.esn ∧
     (logout (.exc e) s).1.sentSignals = s.sentSignals) := by
  constructor
  · refine ⟨rfl, rfl, rfl, rfl, rfl, rfl, ?_⟩
    simp [is_logged_in, verify_esn_existence, logout]
  · exact ⟨rfl, rfl, rfl, rfl, rfl, rfl⟩

/-- A validation-failure exception kind is never the membership-status kind,
so the re-raise from the inner except clause always lands in the outer
`except Exception` clause. -/
theorem validate_not_membership (e : Exc) (h : isLoginValidateExc e = true) :
    isInvalidMembershipExc e = false := by
  cases e <;> simp [isLoginValidateExc, isInvalidMembershipExc] at h ⊢
  rcases h with h | h <;> subst h <;> decide

/-- C5: when server-side validation of the credentials fails
(LoginValidateError / LoginValidateErrorIncorrectPassword from
extract_session_data), login clears the session's cookie jar and purges the
stored credentials; on the prefetch path (modal_error_message false) the
validation exception is re-raised out of login, while on the interactive path
a modal error dialog is shown and login returns False; and on any other
unexpected failure inside login (any exception that is neither a validation
failure nor the membership-status kind, whether raised before or at the
validation step), the cookie jar is cleared and the exception is re-raised —
login never leaves a half-valid cookie jar in place. -/
theorem login_failure_cleanup (s : SessionState) (e : Exc) (m : Bool) :
    (isLoginValidateExc e = true →
      ((login none (some e) false s).1.cookieJar = [] ∧
       (login none (some e) false s).1.credentials = false ∧
       (login none (some e) false s).2 = .exc e) ∧
      ((login none (some e) true s).1.cookieJar = [] ∧
       (login none (some e) true s).1.credentials = false ∧
       (login none (some e) true s).1.okDialogs =
         s.okDialogs ++ [(get_local_string 30008, excToStr e)] ∧
       (login none (some e) true s).2 = .ret false)) ∧
    (isLoginValidateExc e = false → isInvalidMembershipExc e = false →
      ((login none (some e) m s).1.cookieJar = [] ∧
       (login none (some e) m s).2 = .exc e) ∧
      ((login (some e) none m s).1.cookieJar = [] ∧
       (login (some e) none m s).2 = .exc e)) := by
  constructor
  · intro hv
    have hm := validate_not_membership e hv
    constructor
    · refine ⟨?_, ?_, ?_⟩ <;>
        simp [login, login_outer_except, hv, hm]
    · refine ⟨?_, ?_, ?_, ?_⟩ <;>
        simp [login, hv]
  · intro hv hm
    constructor <;>
      refine ⟨?_, ?_⟩ <;>
      simp [login, login_outer_except, hv, hm]

theorem login_failure_cleanup_witness :
    ((login none (some (Exc.api ("LoginValidateError") (some (JVal.str ("Incorrect password.")))))
        false sampleLoggedInState).1.credentials = false) ∧
    ((login none (some (Exc.api ("LoginValidateError") (some (JVal.str ("Incorrect password.")))))
        false sampleLoggedInState).2 =
      .exc (Exc.api ("LoginValidateError") (some (JVal.str ("Incorrect password."))))) ∧
    ((login (some (Exc.generic (JVal.str ("boom")))) none true sampleLoggedInState).2 =
      .exc (Exc.generic (JVal.str ("boom")))) :=
  ⟨(((login_failure_cleanup sampleLoggedInState
      (Exc.api ("LoginValidateError") (some (JVal.str ("Incorrect password.")))) true).1
      (by decide)).1).2.1,
   (((login_failure_cleanup sampleLoggedInState
      (Exc.api ("LoginValidateError") (some (JVal.str ("Incorrect password.")))) true).1
      (by decide)).1).2.2,
   ((login_failure_cleanup sampleLoggedInState (Exc.generic (JVal.str ("boom"))) true).2
      (by decide) (by decide)).2.2⟩
